import Mathlib

/-!
Shallow embedding of the picoceph component lifecycle orchestrator.

Each definition below translates one function of the Go source.  External
effects (process execution, filesystem reads) are made explicit inputs:
a command invocation becomes a value describing its observed outcome, the
device table becomes a list of entries, and the `rand.Intn` draw becomes an
explicit parameter.  Fallible Go functions returning `error` become `Except`.
-/

namespace Picoceph

/-- Go `strings.HasPrefix s pre`: `true` when `pre` is a prefix of `s`. -/
def goHasPrefix (s pre : String) : Bool :=
  pre.data.isPrefixOf s.data

/-- Go `strings.Contains s sub`: `true` when `sub` occurs as a contiguous
substring of `s`. -/
def goContains (s sub : String) : Bool :=
  (List.range (s.length + 1)).any (fun i => sub.data.isPrefixOf (s.data.drop i))

/-- Outcome of a Go filesystem probe (`os.ReadFile` / `os.Stat`), classified
the way the source classifies it: success, `errors.Is(err, os.ErrNotExist)`,
or some other error. -/
inductive FileRead
  | ok (content : String)
  | notExist
  | otherError (msg : String)
deriving DecidableEq

/-- An entry of the `/sys/block` device table: the entry name together with
the observed result of reading its `pid` in-use indicator file. -/
structure BlockDevice where
  name : String
  pidFile : FileRead
deriving DecidableEq

/-- Resource-allocation failures of the nbd device allocator
(`internal/nbd`). -/
inductive NbdError
  | unsupportedKernelFeature
  | noDeviceAvailable
deriving DecidableEq

/-- `nbd.Setup`: runs `/sbin/modprobe nbd` and discards its result
(`_ = cmd.Run()`), then fails exactly when `os.Stat("/sys/block/nbd0")`
reports `os.ErrNotExist`.  `modprobeOk` is the discarded modprobe outcome,
`nbd0Stat` the stat outcome observed after the best-effort load. -/
def nbdSetup (modprobeOk : Bool) (nbd0Stat : FileRead) : Except NbdError Unit :=
  match modprobeOk, nbd0Stat with
  | _, .notExist => .error .unsupportedKernelFeature
  | _, _ => .ok ()

/-- Is the `pid` in-use indicator file absent
(`errors.Is(err, os.ErrNotExist)`)? -/
def pidAbsent : FileRead → Bool
  | .notExist => true
  | _ => false

/-- The free candidates collected by `nbd.NextFreeDevice`: entries whose name
carries the `nbd` prefix and whose `pid` file read fails with
`os.ErrNotExist`. -/
def freeNbdDevices (devices : List BlockDevice) : List BlockDevice :=
  devices.filter (fun d => goHasPrefix d.name "nbd" && pidAbsent d.pidFile)

/-- `nbd.NextFreeDevice`: filters the device table to free `nbd`-prefixed
entries, fails when none remain, and otherwise returns
`filepath.Join("/dev/", name)` of the entry picked by `rand.Intn`; the
random draw is the explicit parameter `r` (reduced mod the candidate count,
as `rand.Intn n` yields a value in `[0, n)`). -/
def nextFreeDevice (devices : List BlockDevice) (r : Nat) : Except String String :=
  let avail := freeNbdDevices devices
  if h : avail.length = 0 then
    .error "no free nbd devices found"
  else
    .ok ("/dev/" ++ (avail.get ⟨r % avail.length, Nat.mod_lt r (Nat.pos_of_ne_zero h)⟩).name)

/-- Observed outcome of one `ceph mgr module ls --format=json` invocation in
`Dashboard.Configure`: the command itself failed, its output failed to parse,
or it parsed into the three classified module-name lists (always-on, enabled,
disabled-but-registered; for disabled modules the source keeps the `name`
field of each entry). -/
inductive MgrModuleQuery
  | execError (msg : String)
  | parseError (raw : String)
  | modules (alwaysOn enabledMods disabledMods : List String)
deriving DecidableEq

/-- Failure kinds of the `Dashboard.Configure` readiness wait. -/
inductive DashboardError
  | timeout
  | queryFailed (msg : String)
  | parseFailed (msg : String)
deriving DecidableEq

/-- Overall deadline of the `Dashboard.Configure` readiness wait, in units of
the one-second poll interval (`context.WithTimeout(ctx, 2*time.Minute)` with
`time.Sleep(time.Second)` between polls). -/
def dashboardConfigureDeadlineSeconds : Nat := 120

/-- One-poll-per-second body of the `Dashboard.Configure` loop, structurally
recursive in the number of seconds left before the deadline expires:
`remaining = 0` is the moment `cephCtx.Done()` fires.  `t` is the number of
one-second sleeps performed so far, and `q t` the outcome of the module
query on the poll issued after `t` sleeps.  The loop fails immediately on a
query execution or parse error, succeeds as soon as `"dashboard"` appears in
the concatenation of the three lists (returning the number of sleeps
performed), and otherwise sleeps one second and retries. -/
def dashboardPollAux (q : Nat → MgrModuleQuery) : Nat → Nat → Except DashboardError Nat
  | _, 0 => .error .timeout
  | t, remaining + 1 =>
    match q t with
    | .execError m => .error (.queryFailed m)
    | .parseError m => .error (.parseFailed m)
    | .modules a e d =>
      if (a ++ e ++ d).contains "dashboard" then
        .ok t
      else
        dashboardPollAux q (t + 1) remaining

/-- The polling loop of `Dashboard.Configure`, entered with `t` sleeps
already performed under the given deadline (in seconds): it checks the
deadline at the top of each iteration and otherwise behaves as
`dashboardPollAux`. -/
def dashboardPoll (q : Nat → MgrModuleQuery) (deadline t : Nat) :
    Except DashboardError Nat :=
  dashboardPollAux q t (deadline - t)

/-- `Dashboard.Configure` (readiness wait): the polling loop started with no
sleeps performed, under the fixed two-minute deadline. -/
def dashboardConfigure (q : Nat → MgrModuleQuery) : Except DashboardError Nat :=
  dashboardPoll q dashboardConfigureDeadlineSeconds 0

/-- Query stub for the readiness properties: the target capability is
reported absent (empty lists) for the first `n` seconds and present in the
disabled-but-registered list from second `n` on. -/
def stubQuery (n : Nat) : Nat → MgrModuleQuery :=
  fun t => .modules [] [] (if n ≤ t then ["dashboard"] else [])

/-- Error returned by a component Start phase. -/
structure StartError where
  msg : String
deriving DecidableEq

/-- Go error text produced when `exec.CommandContext` terminates the child
because the shared context was cancelled: the runtime sends SIGKILL and the
resulting `ExitError` prints as `signal: killed`. -/
def contextKillErrText : String := "signal: killed"

/-- `Monitor.Start`: runs `ceph-mon -f -i <id>` and inspects
`cmd.CombinedOutput()`.  `res` is `none` on a clean exit and otherwise the
Go error text paired with the captured combined output.  An error whose text
contains `signal: killed` is converted to success; any other error is
wrapped together with the captured output. -/
def monitorStart (res : Option (String × String)) : Except StartError Unit :=
  match res with
  | none => .ok ()
  | some (etext, out) =>
    if goContains etext "signal: killed" then
      .ok ()
    else
      .error ⟨"could not start monitor: " ++ etext ++ ": " ++ out⟩

/-- `RADOSGW.Start`: runs `radosgw -f -n client.radosgw.gateway`; same
classification of `cmd.CombinedOutput()` as `Monitor.Start`. -/
def radosgwStart (res : Option (String × String)) : Except StartError Unit :=
  match res with
  | none => .ok ()
  | some (etext, out) =>
    if goContains etext "signal: killed" then
      .ok ()
    else
      .error ⟨"could not start RADOS Gateway: " ++ etext ++ ": " ++ out⟩

/-- A Start-phase run: whether the orchestrator had requested cancellation of
the shared context, and the observed process result. -/
structure StartScenario where
  cancelRequested : Bool
  procResult : Option (String × String)
deriving DecidableEq

/-- `Monitor.Start` as invoked in a run: the source never consults the
cancellation signal, only the process result. -/
def monitorStartRun (s : StartScenario) : Except StartError Unit :=
  monitorStart s.procResult

/-- `RADOSGW.Start` as invoked in a run. -/
def radosgwStartRun (s : StartScenario) : Except StartError Unit :=
  radosgwStart s.procResult

/-- A concrete Start-phase run in which the process was killed by a SIGKILL
that did not come from the orchestrator (cancellation was never requested). -/
def externalSigkillScenario : StartScenario :=
  { cancelRequested := false, procResult := some ("signal: killed", "") }

/-- A Go error value: `context.Canceled`, a plain error with its text (exec
exit errors, OS errors), or a `fmt.Errorf("...: %w", err)` wrap. -/
inductive GoErr
  | contextCanceled
  | plain (text : String)
  | wrap (msg : String) (inner : GoErr)
deriving DecidableEq

/-- `errors.Is(err, context.Canceled)`: walks the wrap chain. -/
def goIsCanceled : GoErr → Bool
  | .contextCanceled => true
  | .plain _ => false
  | .wrap _ e => goIsCanceled e

/-- `errgroup` join semantics, over the goroutine return values listed in
completion order: `Wait` returns only once every unit has finished, yielding
the first non-nil error. -/
def groupWait (rs : List (Option GoErr)) : Option GoErr :=
  rs.findSome? id

/-- The shared `errgroup` context is cancelled as soon as any unit returns a
non-nil error, or when the signal handler calls `cancel()`. -/
def sharedCtxCancelled (signalReceived : Bool) (rs : List (Option GoErr)) : Bool :=
  signalReceived || rs.any Option.isSome

/-- Tail of `main`: exit code 0 unless `g.Wait()` returns an error for which
`errors.Is(err, context.Canceled)` is false, in which case the error is
logged and the process exits 1. -/
def mainExitCode (rs : List (Option GoErr)) : Nat :=
  match groupWait rs with
  | none => 0
  | some e => if goIsCanceled e then 0 else 1

/-- The top-level error logged before a non-zero exit (none when the process
exits cleanly). -/
def surfacedError (rs : List (Option GoErr)) : Option GoErr :=
  match groupWait rs with
  | none => none
  | some e => if goIsCanceled e then none else some e

/-- Follows the claim's words (not the source): the first non-cancellation
failure across the units, in completion order — what the claim says is the
error surfaced by the supervisor. -/
def specFirstNonCancelError (rs : List (Option GoErr)) : Option GoErr :=
  rs.findSome? (fun o => o.bind (fun e => if goIsCanceled e then none else some e))

/-- A concrete completion order in which the first-completed error is a
cancellation wrap while a later unit fails for a genuine reason. -/
def maskedFailureRun : List (Option GoErr) :=
  [some (.wrap "could not configure manager" .contextCanceled),
   some (.wrap "could not start monitor" (.plain "exit status 1"))]

/-- On-disk files touched by `Monitor.Configure`, as content generations
(`some n` = file exists with content generation `n`). -/
structure MonitorFS where
  adminKeyring : Option Nat
  bootstrapOsdKeyring : Option Nat
  tmpMonKeyring : Option Nat
  tmpMonmap : Option Nat
  monDataDir : Bool
deriving DecidableEq

/-- Fresh content generations produced by the key-generating invocations of
one `Monitor.Configure` run. -/
structure FreshKeys where
  adminKey : Nat
  bootstrapKey : Nat
  monKey : Nat
  monmapGen : Nat
deriving DecidableEq

/-- `Monitor.Configure` (success path) up to, and not including, the deletion
of the temporary files: the admin keyring and the bootstrap-osd keyring are
generated only when `os.Stat` reports them absent; the per-run temporary
monitor keyring and monmap are always created; the two `--import-keyring`
runs mutate only the temporary keyring; `MkdirAll` plus `ceph-mon --mkfs`
populate the monitor data directory. -/
def monitorConfigureMid (fs : MonitorFS) (g : FreshKeys) : MonitorFS :=
  let fs1 :=
    if fs.adminKeyring.isNone then
      { fs with adminKeyring := some g.adminKey }
    else fs
  let fs2 :=
    if fs1.bootstrapOsdKeyring.isNone then
      { fs1 with bootstrapOsdKeyring := some g.bootstrapKey }
    else fs1
  let fs3 := { fs2 with tmpMonKeyring := some g.monKey }
  let fs4 := { fs3 with tmpMonmap := some g.monmapGen }
  { fs4 with monDataDir := true }

/-- `Monitor.Configure` (success path): the mid state followed by
`os.Remove` of the temporary keyring and `os.RemoveAll` of the temporary
monmap (the closing chowns change ownership only, never file contents). -/
def monitorConfigure (fs : MonitorFS) (g : FreshKeys) : MonitorFS :=
  let mid := monitorConfigureMid fs g
  { mid with tmpMonKeyring := none, tmpMonmap := none }

/-- The device table of the allocator scenario: three `nbd`-class entries of
which exactly two carry the in-use `pid` marker. -/
def scenarioDevices : List BlockDevice :=
  [⟨"nbd0", .ok "123"⟩, ⟨"nbd1", .notExist⟩, ⟨"nbd2", .ok "456"⟩]

/-- `context.WithTimeout` bound, in seconds, around the
`ceph auth get-or-create` of `Manager.Configure`
(internal/ceph/manager/manager.go: `2*time.Minute`). -/
def managerConfigureTimeoutSec : Nat := 120

/-- Timeout of the credential exchange in the `RADOSGW.Configure` component
implementation (`2*time.Minute`). -/
def radosgwConfigureTimeoutSec : Nat := 120

/-- Timeout of the credential exchange in `configureRADOSGateway` of the
flat `cmd/main.go` entry point (`30*time.Second`). -/
def cmdConfigureRADOSGatewayTimeoutSec : Nat := 30

/-- Timeout of the credential exchange in `configureManager` of the flat
`cmd/main.go` entry point (`30*time.Second`). -/
def cmdConfigureManagerTimeoutSec : Nat := 30

/-- Timeouts carried by the Start phases (monitor, manager, osd, radosgw,
dashboard): every Start invokes its daemon through `exec.CommandContext`
with the plain shared context and no `WithTimeout`. -/
def startPhaseTimeoutsSec : List (Option Nat) := [none, none, none, none, none]

/-!  Theorems.  Helper lemmas come first, then one theorem per claim with its
witness or counterexample. -/

/-- Helper: on the stub query, once the loop reaches a poll at or after
second `n` with enough seconds remaining, it succeeds after exactly `n`
sleeps. -/
theorem dashboardPollAux_stub_ok (n : Nat) :
    ∀ remaining t, t ≤ n → n - t < remaining →
      dashboardPollAux (stubQuery n) t remaining = .ok n := by
  intro remaining
  induction remaining with
  | zero => intro t ht hr; omega
  | succ k ih =>
    intro t ht hr
    by_cases hn : n ≤ t
    · have het : t = n := Nat.le_antisymm ht hn
      subst het
      simp [dashboardPollAux, stubQuery, hn]
    · have h1 : t + 1 ≤ n := by omega
      have h2 : n - (t + 1) < k := by omega
      simpa [dashboardPollAux, stubQuery, hn] using ih (t + 1) h1 h2

/-- Helper: on the stub query, a loop whose remaining budget runs out before
second `n` times out. -/
theorem dashboardPollAux_stub_timeout (n : Nat) :
    ∀ remaining t, t + remaining ≤ n →
      dashboardPollAux (stubQuery n) t remaining = .error .timeout := by
  intro remaining
  induction remaining with
  | zero => intro t _; rfl
  | succ k ih =>
    intro t ht
    have hn : ¬ n ≤ t := by omega
    simpa [dashboardPollAux, stubQuery, hn] using ih (t + 1) (by omega)

/-- C3: the device allocator never returns a path whose in-use marker was
present at call time.  When the set of free candidates (nbd-prefixed entries
whose pid indicator file is absent) is empty it fails with the
no-device-available error; otherwise every random draw selects the
corresponding free candidate, each free candidate satisfies the free
predicate, and the draw `r` picks exactly the `r`-th candidate — so for a
3-entry table with exactly one unmarked entry, every draw returns that
entry's path. -/
theorem nextFreeDevice_spec (devices : List BlockDevice) (r : Nat) :
    (freeNbdDevices devices = [] →
      nextFreeDevice devices r = .error "no free nbd devices found") ∧
    (freeNbdDevices devices ≠ [] →
      ∃ d, d ∈ freeNbdDevices devices ∧
        nextFreeDevice devices r = .ok ("/dev/" ++ d.name) ∧
        pidAbsent d.pidFile = true ∧ goHasPrefix d.name "nbd" = true) ∧
    (∀ h : r < (freeNbdDevices devices).length,
      nextFreeDevice devices r =
        .ok ("/dev/" ++ ((freeNbdDevices devices).get ⟨r, h⟩).name)) := by
  refine ⟨?_, ?_, ?_⟩
  · intro hnil
    simp [nextFreeDevice, hnil]
  · intro hne
    have hL : (freeNbdDevices devices).length ≠ 0 := by
      simpa [List.length_eq_zero] using hne
    have hpos : 0 < (freeNbdDevices devices).length := Nat.pos_of_ne_zero hL
    refine ⟨(freeNbdDevices devices).get ⟨r % _, Nat.mod_lt r hpos⟩, ?_, ?_, ?_⟩
    · exact List.get_mem _ _ _
    · simp [nextFreeDevice, hL]
    · have hmem : (freeNbdDevices devices).get ⟨r % _, Nat.mod_lt r hpos⟩ ∈
          freeNbdDevices devices := List.get_mem _ _ _
      have hp : (fun d => goHasPrefix d.name "nbd" && pidAbsent d.pidFile)
          ((freeNbdDevices devices).get ⟨r % _, Nat.mod_lt r hpos⟩) = true :=
        (List.mem_filter.mp hmem).2
      have hp2 : goHasPrefix ((freeNbdDevices devices).get
            ⟨r % _, Nat.mod_lt r hpos⟩).name "nbd" = true ∧
          pidAbsent ((freeNbdDevices devices).get
            ⟨r % _, Nat.mod_lt r hpos⟩).pidFile = true := by
        simpa using hp
      exact ⟨hp2.2, hp2.1⟩
  · intro h
    have hL : (freeNbdDevices devices).length ≠ 0 := by omega
    simp [nextFreeDevice, hL, Nat.mod_eq_of_lt h]

/-- C3 witness: in the scenario table {nbd0 busy, nbd1 free, nbd2 busy} the
allocator returns /dev/nbd1 for the (only possible) draw. -/
theorem nextFreeDevice_spec_witness :
    nextFreeDevice scenarioDevices 0 = .ok "/dev/nbd1" ∧
    (freeNbdDevices scenarioDevices).length = 1 := by
  have h := (nextFreeDevice_spec scenarioDevices 0).2.2 (by decide)
  exact ⟨h.trans rfl, by decide⟩

/-- C8: `nbd.Setup` fails with the unsupported-kernel-feature error exactly
when the device class entry is absent from the device table after the
best-effort module load, and the discarded modprobe outcome never affects
the result. -/
theorem nbdSetup_support_check (modprobeOk : Bool) (s : FileRead) :
    (nbdSetup modprobeOk s = .error .unsupportedKernelFeature ↔ s = .notExist) ∧
    nbdSetup modprobeOk s = nbdSetup (!modprobeOk) s := by
  cases s <;> simp [nbdSetup]

/-- C4: the readiness poller fails immediately with the query-failed error
when the capability query itself fails to execute (no retry), and on the
absent-for-`n`-seconds-then-present stub it succeeds for any deadline
greater than `n` and fails with exactly the timeout error for any deadline
less than `n`. -/
theorem dashboard_readiness_termination (q : Nat → MgrModuleQuery)
    (deadline n t : Nat) (m : String) :
    (t < deadline → q t = .execError m →
      dashboardPoll q deadline t = .error (.queryFailed m)) ∧
    (n < deadline → dashboardPoll (stubQuery n) deadline 0 = .ok n) ∧
    (deadline < n → dashboardPoll (stubQuery n) deadline 0 = .error .timeout) := by
  refine ⟨?_, ?_, ?_⟩
  · intro ht hq
    have hd : deadline - t = (deadline - t - 1) + 1 := by omega
    rw [dashboardPoll, hd]
    simp [dashboardPollAux, hq]
  · intro hnd
    exact dashboardPollAux_stub_ok n (deadline - 0) 0 (Nat.zero_le n) (by omega)
  · intro hdn
    exact dashboardPollAux_stub_timeout n (deadline - 0) 0 (by omega)

/-- C4 witness: a failing query is reported as query-failed on the first
poll; the stub that turns present after 1 second succeeds under the
two-minute deadline and times out under a deadline of 1 with the target
appearing only after 2 seconds. -/
theorem dashboard_readiness_termination_witness :
    dashboardPoll (fun _ => .execError "boom") 120 0 = .error (.queryFailed "boom") ∧
    dashboardPoll (stubQuery 1) 120 0 = .ok 1 ∧
    dashboardPoll (stubQuery 2) 1 0 = .error .timeout := by
  refine ⟨(dashboard_readiness_termination (fun _ => .execError "boom") 120 0 0 "boom").1
      (by decide) rfl,
    (dashboard_readiness_termination (stubQuery 1) 120 1 0 "").2.1 (by decide),
    (dashboard_readiness_termination (stubQuery 2) 1 2 0 "").2.2 (by decide)⟩

/-- C7: each poll queries the three classified module lists and succeeds
immediately (after exactly the sleeps already performed) when the target
appears in their union; when the target is absent the loop performs exactly
one more one-second sleep before the next poll; in particular a first query
reporting `dashboard` in the disabled list makes `Dashboard.Configure`
succeed on the first poll with zero sleeps. -/
theorem dashboard_poll_first_hit (q : Nat → MgrModuleQuery) (deadline t : Nat)
    (a e d : List String) :
    (t < deadline → q t = .modules a e d →
      (a ++ e ++ d).contains "dashboard" = true →
      dashboardPoll q deadline t = .ok t) ∧
    (t < deadline → q t = .modules a e d →
      (a ++ e ++ d).contains "dashboard" = false →
      dashboardPoll q deadline t = dashboardPoll q deadline (t + 1)) ∧
    dashboardConfigure (fun _ => .modules [] [] ["dashboard"]) = .ok 0 := by
  refine ⟨?_, ?_, rfl⟩
  · intro ht hq hc
    have hd : deadline - t = (deadline - t - 1) + 1 := by omega
    rw [dashboardPoll, hd]
    simp only [dashboardPollAux, hq]
    rw [hc]
    simp
  · intro ht hq hc
    have hd : deadline - t = (deadline - (t + 1)) + 1 := by omega
    simp only [dashboardPoll]
    rw [hd]
    simp only [dashboardPollAux, hq]
    rw [hc]
    simp

/-- C7 witness: with the disabled-list-only query the poller succeeds on the
first poll without sleeping, and a query with the target absent at second 0
advances by exactly one sleep. -/
theorem dashboard_poll_first_hit_witness :
    dashboardPoll (fun _ => .modules [] [] ["dashboard"]) 120 0 = .ok 0 ∧
    dashboardPoll (stubQuery 1) 120 0 = dashboardPoll (stubQuery 1) 120 1 := by
  refine ⟨(dashboard_poll_first_hit (fun _ => .modules [] [] ["dashboard"]) 120 0
      [] [] ["dashboard"]).1 (by decide) rfl (by decide),
    (dashboard_poll_first_hit (stubQuery 1) 120 0 [] []
      (if 1 ≤ 0 then ["dashboard"] else [])).2.1 (by decide) rfl (by decide)⟩

/-- C9: the clean-shutdown classification of a Start failure is decided
solely by the substring test for `signal: killed` on the process-exit error
text, not by the cancellation signal: success exactly when the process
exited cleanly or its error text contains `signal: killed`; a SIGTERM
(`signal: terminated`) or a non-zero exit is a failure even when
cancellation was requested, and an external SIGKILL is a clean stop. -/
theorem start_signal_killed_classification (res : Option (String × String)) (c : Bool) :
    (monitorStart res = .ok () ↔
      (res = none ∨ ∃ p, res = some p ∧ goContains p.1 "signal: killed" = true)) ∧
    (radosgwStart res = .ok () ↔
      (res = none ∨ ∃ p, res = some p ∧ goContains p.1 "signal: killed" = true)) ∧
    (monitorStartRun ⟨c, res⟩ = monitorStart res ∧
      radosgwStartRun ⟨c, res⟩ = radosgwStart res) ∧
    monitorStart (some ("signal: terminated", "out")) =
      .error ⟨"could not start monitor: signal: terminated: out"⟩ ∧
    radosgwStart (some ("signal: terminated", "out")) =
      .error ⟨"could not start RADOS Gateway: signal: terminated: out"⟩ ∧
    monitorStart (some ("signal: killed", "out")) = .ok () ∧
    radosgwStart (some ("exit status 1", "out")) =
      .error ⟨"could not start RADOS Gateway: exit status 1: out"⟩ := by
  refine ⟨?_, ?_, ⟨rfl, rfl⟩, rfl, rfl, rfl, rfl⟩
  · cases res with
    | none => simp [monitorStart]
    | some p =>
      obtain ⟨t, out⟩ := p
      by_cases hk : goContains t "signal: killed"
      · simp [monitorStart, hk]
      · simp [monitorStart, hk]
  · cases res with
    | none => simp [radosgwStart]
    | some p =>
      obtain ⟨t, out⟩ := p
      by_cases hk : goContains t "signal: killed"
      · simp [radosgwStart, hk]
      · simp [radosgwStart, hk]

/-- C2 counterexample: a Start run whose process was SIGKILLed although
cancellation was never requested is an abnormal exit, yet Start reports
success rather than an error. -/
theorem start_external_sigkill_cex :
    externalSigkillScenario.cancelRequested = false ∧
    externalSigkillScenario.procResult.isSome = true ∧
    monitorStartRun externalSigkillScenario = .ok () :=
  ⟨rfl, rfl, rfl⟩

/-- C2 (amended): when the shared context is cancelled the orchestrator kills
the process with SIGKILL and the resulting `signal: killed` error text makes
Start return success (the component stops cleanly); any abnormal exit whose
error text does not contain `signal: killed` makes Start return the error
wrapping the text and the captured diagnostic output — but an exit whose
text contains `signal: killed` is treated as success even without
cancellation. -/
theorem start_cancelled_reports_stopped (s : StartScenario) :
    (s.cancelRequested = true →
      ∀ out, s.procResult = some (contextKillErrText, out) →
        monitorStartRun s = .ok () ∧ radosgwStartRun s = .ok ()) ∧
    (∀ etext out, s.procResult = some (etext, out) →
      goContains etext "signal: killed" = false →
      monitorStartRun s = .error ⟨"could not start monitor: " ++ etext ++ ": " ++ out⟩ ∧
      radosgwStartRun s =
        .error ⟨"could not start RADOS Gateway: " ++ etext ++ ": " ++ out⟩) := by
  have hkill : goContains contextKillErrText "signal: killed" = true := by decide
  constructor
  · intro _ out hres
    constructor
    · simp [monitorStartRun, monitorStart, hres, hkill]
    · simp [radosgwStartRun, radosgwStart, hres, hkill]
  · intro etext out hres hfar
    constructor
    · simp [monitorStartRun, monitorStart, hres, hfar]
    · simp [radosgwStartRun, radosgwStart, hres, hfar]

/-- C2 witness: a cancellation-induced SIGKILL is a clean stop, while an
uncancelled non-zero exit is a failure carrying the captured output. -/
theorem start_cancelled_reports_stopped_witness :
    monitorStartRun ⟨true, some (contextKillErrText, "")⟩ = .ok () ∧
    monitorStartRun ⟨false, some ("exit status 1", "out")⟩ =
      .error ⟨"could not start monitor: exit status 1: out"⟩ := by
  refine ⟨((start_cancelled_reports_stopped ⟨true, some (contextKillErrText, "")⟩).1
      rfl "" rfl).1,
    ((start_cancelled_reports_stopped ⟨false, some ("exit status 1", "out")⟩).2
      "exit status 1" "out" rfl (by decide)).1⟩

/-- C1 counterexample: a completion order whose first-finished error is a
cancellation wrap while a later unit failed for a genuine reason; the claim
says the surfaced error is the first non-cancellation failure and that an
unrecovered start failure exits non-zero, but the code surfaces no error and
exits zero. -/
theorem supervisor_masked_failure_cex :
    specFirstNonCancelError maskedFailureRun =
      some (.wrap "could not start monitor" (.plain "exit status 1")) ∧
    surfacedError maskedFailureRun = none ∧
    mainExitCode maskedFailureRun = 0 :=
  ⟨rfl, rfl, rfl⟩

/-- C1 (amended): the first unit failure (or a signal) cancels the shared
context; `Wait` returns after all units finish, yielding the first error in
completion order regardless of kind; the top level filters exactly the
errors satisfying `errors.Is(err, context.Canceled)`: exit code 0 when there
is no error or the first-completed error is cancellation-derived, and exit
code 1 with that error logged when it is not. -/
theorem supervisor_first_error_wins (rs : List (Option GoErr)) (sig : Bool) :
    (groupWait rs = none → mainExitCode rs = 0 ∧ surfacedError rs = none) ∧
    (∀ e, groupWait rs = some e → goIsCanceled e = true →
      mainExitCode rs = 0 ∧ surfacedError rs = none) ∧
    (∀ e, groupWait rs = some e → goIsCanceled e = false →
      mainExitCode rs = 1 ∧ surfacedError rs = some e) ∧
    (rs.any Option.isSome = true → sharedCtxCancelled sig rs = true) ∧
    sharedCtxCancelled true rs = true := by
  refine ⟨?_, ?_, ?_, ?_, ?_⟩
  · intro hw
    simp [mainExitCode, surfacedError, hw]
  · intro e hw hc
    simp [mainExitCode, surfacedError, hw, hc]
  · intro e hw hc
    simp [mainExitCode, surfacedError, hw, hc]
  · intro h
    simp [sharedCtxCancelled, h]
  · simp [sharedCtxCancelled]

/-- C1 witness: a first-completed genuine failure exits 1, a first-completed
cancellation wrap exits 0, and an all-clean run exits 0. -/
theorem supervisor_first_error_wins_witness :
    mainExitCode [some (.wrap "could not configure monitor" (.plain "exit status 1")),
      none] = 1 ∧
    mainExitCode [none, some (.wrap "could not configure manager" .contextCanceled)] = 0 ∧
    mainExitCode [none, none, none, none] = 0 := by
  refine ⟨((supervisor_first_error_wins
        [some (.wrap "could not configure monitor" (.plain "exit status 1")), none]
        false).2.2.1 _ rfl rfl).1,
    ((supervisor_first_error_wins
        [none, some (.wrap "could not configure manager" .contextCanceled)]
        false).2.1 _ rfl rfl).1,
    ((supervisor_first_error_wins [none, none, none, none] false).1 rfl).1⟩

/-- C10: `Monitor.Configure` generates the cluster-wide admin keyring and the
bootstrap-osd keyring only when the corresponding file is absent, leaving an
existing file's content untouched, while the per-run temporary monitor
keyring and monmap are always freshly created during the run and removed
before Configure returns. -/
theorem monitorConfigure_frame (fs : MonitorFS) (g : FreshKeys) :
    (∀ c, fs.adminKeyring = some c → (monitorConfigure fs g).adminKeyring = some c) ∧
    (fs.adminKeyring = none → (monitorConfigure fs g).adminKeyring = some g.adminKey) ∧
    (∀ c, fs.bootstrapOsdKeyring = some c →
      (monitorConfigure fs g).bootstrapOsdKeyring = some c) ∧
    (fs.bootstrapOsdKeyring = none →
      (monitorConfigure fs g).bootstrapOsdKeyring = some g.bootstrapKey) ∧
    ((monitorConfigureMid fs g).tmpMonKeyring = some g.monKey ∧
      (monitorConfigureMid fs g).tmpMonmap = some g.monmapGen) ∧
    ((monitorConfigure fs g).tmpMonKeyring = none ∧
      (monitorConfigure fs g).tmpMonmap = none) := by
  obtain ⟨a, b, tk, tm, md⟩ := fs
  cases a <;> cases b <;>
    simp [monitorConfigure, monitorConfigureMid]

/-- C10 witness: with an existing admin keyring and a missing bootstrap-osd
keyring, Configure preserves the former, generates the latter, and leaves no
temporary files behind. -/
theorem monitorConfigure_frame_witness :
    (monitorConfigure ⟨some 7, none, none, none, false⟩ ⟨1, 2, 3, 4⟩).adminKeyring
      = some 7 ∧
    (monitorConfigure ⟨some 7, none, none, none, false⟩ ⟨1, 2, 3, 4⟩).bootstrapOsdKeyring
      = some 2 ∧
    (monitorConfigure ⟨some 7, none, none, none, false⟩ ⟨1, 2, 3, 4⟩).tmpMonKeyring
      = none := by
  refine ⟨(monitorConfigure_frame ⟨some 7, none, none, none, false⟩ ⟨1, 2, 3, 4⟩).1 7 rfl,
    (monitorConfigure_frame ⟨some 7, none, none, none, false⟩ ⟨1, 2, 3, 4⟩).2.2.2.1 rfl,
    (monitorConfigure_frame ⟨some 7, none, none, none, false⟩ ⟨1, 2, 3, 4⟩).2.2.2.2.2.1⟩

/-- C5 counterexample: the credential exchange of the gateway configure phase
in the flat cmd entry point is bounded at 30 seconds, not the two minutes
the claim asserts for every such Configure phase. -/
theorem configure_timeout_two_minutes_cex :
    cmdConfigureRADOSGatewayTimeoutSec = 30 ∧
    ¬ cmdConfigureRADOSGatewayTimeoutSec = 120 := by
  decide

/-- C5 (amended): the component implementations bound their credential
exchanges (manager, gateway, dashboard readiness wait) at exactly two
minutes, the flat cmd entry point bounds its manager and gateway exchanges
at thirty seconds, and no Start phase carries any timeout. -/
theorem configure_timeouts_spec :
    managerConfigureTimeoutSec = 120 ∧ radosgwConfigureTimeoutSec = 120 ∧
    dashboardConfigureDeadlineSeconds = 120 ∧
    cmdConfigureRADOSGatewayTimeoutSec = 30 ∧ cmdConfigureManagerTimeoutSec = 30 ∧
    startPhaseTimeoutsSec.all Option.isNone = true := by
  decide

end Picoceph
